import Mathlib

/-!
Shallow embedding of the Backup & Restore Engine of `mongodb-manager`
(`src/lib/backup-manager.js`), and proofs about its behaviour.

The JavaScript class `BackupManager` performs filesystem and database I/O
through collaborators.  The embedding makes every fallible external step an
explicit `Except String _` input supplied in an environment record, translates
the control flow of each method directly, and keeps the method's observable
effects (records pushed, totals accumulated, files written, operations
attempted on the target database, temp-directory lifecycle) as explicit data.
-/

set_option autoImplicit false

namespace MongoBackup

/-! ### JSON values (documents, indexes, stats are JSON in the source) -/

/-- A JSON value, as manipulated by `JSON.stringify` / `JSON.parse` in the
source. -/
inductive Json where
  | null
  | bool (b : Bool)
  | num (n : Int)
  | str (s : String)
  | arr (elems : List Json)
  | obj (fields : List (String × Json))

/-- Escape one character as inside a JSON string literal. -/
def jsonEscapeChar (c : Char) : String :=
  if c = '"' then "\\\""
  else if c = '\\' then "\\\\"
  else if c = '\n' then "\\n"
  else if c = '\t' then "\\t"
  else if c = '\r' then "\\r"
  else String.singleton c

/-- Serialize a string as a JSON string literal. -/
def jsonQuote (s : String) : String :=
  "\"" ++ String.join (s.toList.map jsonEscapeChar) ++ "\""

mutual

/-- Compact `JSON.stringify` (no indent argument), as used at
`backup-manager.js:69` and `backup-manager.js:74` to measure payload sizes. -/
def Json.stringify : Json → String
  | .null => "null"
  | .bool true => "true"
  | .bool false => "false"
  | .num n => toString n
  | .str s => jsonQuote s
  | .arr elems => "[" ++ Json.stringifyElems elems ++ "]"
  | .obj fields => "\x7b" ++ Json.stringifyFields fields ++ "\x7d"

/-- Comma-separated serialization of array elements. -/
def Json.stringifyElems : List Json → String
  | [] => ""
  | [x] => Json.stringify x
  | x :: y :: rest => Json.stringify x ++ "," ++ Json.stringifyElems (y :: rest)

/-- Comma-separated serialization of object fields. -/
def Json.stringifyFields : List (String × Json) → String
  | [] => ""
  | [(k, v)] => jsonQuote k ++ ":" ++ Json.stringify v
  | (k, v) :: f :: rest =>
      jsonQuote k ++ ":" ++ Json.stringify v ++ "," ++ Json.stringifyFields (f :: rest)

end

/-! ### Snapshot Creator: `createBackup` (backup-manager.js:25-115) -/

/-- One entry of `backupInfo.collections`.  The source pushes either a success
object `\x7bname, documentCount, size, indexes\x7d` (line 66) or a failure object
`\x7bname, error\x7d` (line 79). -/
inductive CollRecord where
  | success (name : String) (documentCount : Nat) (size : Nat) (indexes : Nat)
  | failure (name : String) (error : String)
  deriving Repr, DecidableEq

/-- The `backupInfo` object built by `createBackup` (lines 36-43) and later
serialized as `backup-info.json`.  `compressed` / `archivePath` are absent
(`none`) until the compression branch sets them (lines 98-99). -/
structure BackupInfo where
  cluster : String
  database : String
  timestamp : Int
  collections : List CollRecord
  totalDocuments : Nat
  totalSize : Nat
  compressed : Option Bool
  archivePath : Option String
  deriving Repr, DecidableEq

/-- Behaviour of one source collection during the snapshot: the outcomes of
the external calls `find({}).toArray()`, `listIndexes().toArray()`, `stats()`
and the export-file `writeFile`, in source order (lines 52-64). -/
structure CollectionSource where
  name : String
  findOutcome : Except String (List Json)
  indexesOutcome : Except String (List Json)
  statsOutcome : Except String Json
  writeOutcome : Except String Unit

/-- The per-collection export-file object (lines 55-62). -/
def collectionDataJson (collectionName dbName clusterName : String)
    (documents indexes : List Json) (stats : Json) : Json :=
  .obj [("collection", .str collectionName), ("database", .str dbName),
        ("cluster", .str clusterName), ("documents", .arr documents),
        ("indexes", .arr indexes), ("stats", stats)]

/-- Body of the per-collection `try` block (lines 50-76): read documents,
read indexes, read stats substituting an empty object on failure
(`.catch(() => (\x7b\x7d))`, line 61), write the export file, and report this
collection's document count, serialized payload size
(`JSON.stringify(collectionData).length`, lines 69/74) and index count.
A thrown error is the `Except.error` case, carrying the error's message. -/
def tryBackupCollection (clusterName dbName : String) (c : CollectionSource) :
    Except String (Nat × Nat × Nat) := do
  let documents ← c.findOutcome
  let indexes ← c.indexesOutcome
  let stats := match c.statsOutcome with
    | .ok s => s
    | .error _ => Json.obj []
  let collectionData := collectionDataJson c.name dbName clusterName documents indexes stats
  let _ ← c.writeOutcome
  pure (documents.length, (Json.stringify collectionData).length, indexes.length)

/-- The `for (const collectionInfo of collections)` loop (lines 47-84):
on success push a success record and bump the totals (lines 66-74), on a
caught error push a failure record carrying `error.message` (lines 79-82)
and continue with the next collection. -/
def backupCollections (clusterName dbName : String) :
    List CollectionSource → BackupInfo → BackupInfo
  | [], info => info
  | c :: rest, info =>
      match tryBackupCollection clusterName dbName c with
      | .ok (docCount, size, idxCount) =>
          backupCollections clusterName dbName rest
            { info with
                collections := info.collections ++ [.success c.name docCount size idxCount],
                totalDocuments := info.totalDocuments + docCount,
                totalSize := info.totalSize + size }
      | .error msg =>
          backupCollections clusterName dbName rest
            { info with collections := info.collections ++ [.failure c.name msg] }

/-- Options object of `createBackup`. -/
structure BackupOptions where
  compress : Bool
  deriving Repr, DecidableEq

/-- Environment of one `createBackup` call: the formatted timestamp (line 27),
the manifest timestamp (line 39), and the outcome of every fallible external
step, in source order. -/
structure CreateBackupEnv where
  timestamp : String
  now : Int
  mkdirOutcome : Except String Unit
  getDatabaseOutcome : Except String Unit
  listCollectionsOutcome : Except String (List CollectionSource)
  metadataWriteOutcome : Except String Unit
  compressOutcome : Except String Unit
  rmdirOutcome : Except String Unit

/-- The object returned by `createBackup` (lines 104-110). -/
structure CreateBackupResult where
  name : String
  path : String
  info : BackupInfo
  size : Nat
  collections : Nat
  deriving Repr, DecidableEq

/-- Result of a successful `createBackup` plus the content written into
`backup-info.json` at line 88 (captured at write time: the source mutates the
in-memory `backupInfo` afterwards, lines 98-99, without rewriting the file). -/
structure CreateBackupOutput where
  result : CreateBackupResult
  persistedManifest : BackupInfo
  deriving Repr, DecidableEq

/-- `createBackup(clusterName, dbName, options)` (lines 25-115).  Any error of
an outer step propagates (the outer `catch` rethrows, line 113). -/
def createBackup (env : CreateBackupEnv) (clusterName dbName : String)
    (options : BackupOptions) : Except String CreateBackupOutput := do
  let backupName := clusterName ++ "-" ++ dbName ++ "-" ++ env.timestamp
  let backupPath := "backups/" ++ backupName
  let _ ← env.mkdirOutcome
  let _ ← env.getDatabaseOutcome
  let collections ← env.listCollectionsOutcome
  let backupInfo : BackupInfo :=
    { cluster := clusterName, database := dbName, timestamp := env.now,
      collections := [], totalDocuments := 0, totalSize := 0,
      compressed := none, archivePath := none }
  let backupInfo := backupCollections clusterName dbName collections backupInfo
  let _ ← env.metadataWriteOutcome
  let persisted := backupInfo
  let backupInfo ←
    if options.compress then do
      let _ ← env.compressOutcome
      let _ ← env.rmdirOutcome
      pure { backupInfo with compressed := some true,
                             archivePath := some (backupPath ++ ".zip") }
    else
      pure backupInfo
  pure { result :=
          { name := backupName,
            path := if options.compress then backupPath ++ ".zip" else backupPath,
            info := backupInfo,
            size := backupInfo.totalSize,
            collections := backupInfo.collections.length },
         persistedManifest := persisted }

/-- Record produced for one collection, success or failure (used to state
what the loop appends). -/
def snapshotRecord (clusterName dbName : String) (c : CollectionSource) : CollRecord :=
  match tryBackupCollection clusterName dbName c with
  | .ok (docCount, size, idxCount) => .success c.name docCount size idxCount
  | .error msg => .failure c.name msg

/-- Serialized payload size contributed by one collection: its compact
`JSON.stringify` length if it snapshots successfully, `0` if it fails. -/
def snapshotSize (clusterName dbName : String) (c : CollectionSource) : Nat :=
  match tryBackupCollection clusterName dbName c with
  | .ok (_, size, _) => size
  | .error _ => 0

/-- Document count contributed by one collection (0 on failure). -/
def snapshotDocs (clusterName dbName : String) (c : CollectionSource) : Nat :=
  match tryBackupCollection clusterName dbName c with
  | .ok (docCount, _, _) => docCount
  | .error _ => 0

/-! ### Restorer: `restoreBackup` (backup-manager.js:134-222) -/

/-- JS `String.prototype.endsWith`, evaluated on the underlying characters
(the source uses `backupPath.endsWith('.zip')`, lines 139 and 207). -/
def jsEndsWith (s suffixStr : String) : Bool :=
  (s.toList.reverse.take suffixStr.toList.length) == suffixStr.toList.reverse

/-- Remove the first occurrence of `pat` from a character list. -/
def dropFirstMatch (pat : List Char) : List Char → List Char
  | [] => []
  | c :: rest =>
      if pat.isPrefixOf (c :: rest) then (c :: rest).drop pat.length
      else c :: dropFirstMatch pat rest

/-- JS `String.prototype.replace` with a plain-string pattern: replaces only
the first occurrence (the source uses `file.replace('.zip', '')`, line 255). -/
def jsReplaceFirst (s pat : String) : String :=
  String.mk (dropFirstMatch pat.toList s.toList)

/-- One entry of a parsed manifest's `collections` array as consumed by the
restore loop: the `name` and the (possibly absent) `error` field. -/
structure ManifestRecord where
  name : String
  error : Option String
  deriving Repr, DecidableEq

/-- JS truthiness of `collectionInfo.error` (line 156): `undefined` (`none`)
and the empty string are falsy, any other string is truthy. -/
def truthyError : Option String → Bool
  | none => false
  | some s => s ≠ ""

/-- An index definition from a per-collection export file; restore reads its
`name`, `key`, `unique` and `sparse` fields (lines 179-187). -/
structure IndexDef where
  name : String
  key : Json
  unique : Bool
  sparse : Bool

/-- Parsed content of a per-collection export file as used by the restore
loop (`documents`, `indexes`; lines 161, 174, 179). -/
structure CollectionFileData where
  documents : List Json
  indexes : List IndexDef

/-- Per-collection environment of a restore: the outcome of reading and
parsing `<name>.json` and the outcome of `insertMany`.  `drop` and
`createIndex` failures are swallowed by inner `try` blocks (lines 166-171,
181-190) and so never influence control flow; they are not modelled. -/
structure CollRestoreEnv where
  readOutcome : Except String CollectionFileData
  insertOutcome : Except String Unit

/-- Operations attempted on the target database by a restore. -/
inductive RestoreOp where
  | drop (collection : String)
  | insertMany (collection : String) (docCount : Nat)
  | createIndex (collection index : String)
  deriving Repr, DecidableEq

/-- One entry of `restoredCollections` (lines 194-198).  `indexes` is an
`Int`: the source computes `collectionData.indexes.length - 1`. -/
structure RestoredEntry where
  name : String
  documents : Nat
  indexes : Int
  deriving Repr, DecidableEq

/-- Options object of `restoreBackup`. -/
structure RestoreOptions where
  dropExisting : Bool
  deriving Repr, DecidableEq

/-- The `createIndex` calls attempted for one collection: one per index
definition except `_id_` (lines 179-192). -/
def indexOps (collection : String) : List IndexDef → List RestoreOp
  | [] => []
  | idx :: rest =>
      if idx.name ≠ "_id_" then RestoreOp.createIndex collection idx.name :: indexOps collection rest
      else indexOps collection rest

/-- Body of the per-collection restore `try` block (lines 158-203) for one
manifest record that was not skipped: read+parse the export file, optionally
drop, `insertMany` when there are documents, recreate non-`_id_` indexes, and
push a restored entry.  A thrown read/parse or insert error is caught at line
201 and yields no entry; the operations attempted up to that point remain. -/
def restoreCollection (options : RestoreOptions) (colEnvs : List (String × CollRestoreEnv))
    (rec : ManifestRecord) : List RestoreOp × Option RestoredEntry :=
  match colEnvs.lookup rec.name with
  | none => ([], none)
  | some ce =>
      match ce.readOutcome with
      | .error _ => ([], none)
      | .ok data =>
          let dropOps := if options.dropExisting then [RestoreOp.drop rec.name] else []
          if data.documents.length > 0 then
            match ce.insertOutcome with
            | .error _ =>
                (dropOps ++ [RestoreOp.insertMany rec.name data.documents.length], none)
            | .ok _ =>
                (dropOps ++ [RestoreOp.insertMany rec.name data.documents.length]
                   ++ indexOps rec.name data.indexes,
                 some ⟨rec.name, data.documents.length, (data.indexes.length : Int) - 1⟩)
          else
            (dropOps ++ indexOps rec.name data.indexes,
             some ⟨rec.name, data.documents.length, (data.indexes.length : Int) - 1⟩)

/-- The `for (const collectionInfo of backupInfo.collections)` loop
(lines 155-204): a record with a truthy `error` is skipped by the `continue`
at line 156; every other record is processed by `restoreCollection`. -/
def restoreCollections (options : RestoreOptions) (colEnvs : List (String × CollRestoreEnv)) :
    List ManifestRecord → List RestoreOp × List RestoredEntry
  | [] => ([], [])
  | rec :: rest =>
      if truthyError rec.error then restoreCollections options colEnvs rest
      else
        let step := restoreCollection options colEnvs rec
        let tail := restoreCollections options colEnvs rest
        (step.1 ++ tail.1, step.2.toList ++ tail.2)

/-- Environment of one `restoreBackup` call: outcomes of the fallible
external steps in source order (extract, manifest read+parse, database
resolution, per-collection steps, final temp-directory removal). -/
structure RestoreEnv where
  extractOutcome : Except String Unit
  manifestOutcome : Except String (List ManifestRecord)
  getDatabaseOutcome : Except String Unit
  colEnvs : List (String × CollRestoreEnv)
  rmdirOutcome : Except String Unit

/-- The object returned by `restoreBackup` (lines 213-217). -/
structure RestoreResult where
  restoredCollections : List RestoredEntry
  sourceBackup : List ManifestRecord
  targetCluster : String
  targetDatabase : String
  deriving Repr, DecidableEq

/-- Observable trace of one `restoreBackup` call: whether the scratch
directory for archive extraction was created (line 142) and removed
(line 208), and the operations attempted on the target database. -/
structure RestoreTrace where
  tempDirCreated : Bool
  tempDirRemoved : Bool
  ops : List RestoreOp
  deriving Repr, DecidableEq

/-- Steps shared by the archive and plain-directory paths of `restoreBackup`
(lines 146-204): manifest read+parse, database resolution, restore loop. -/
def restoreBody (env : RestoreEnv) (targetCluster targetDatabase : String)
    (options : RestoreOptions) : List RestoreOp × Except String RestoreResult :=
  match env.manifestOutcome with
  | .error e => ([], .error e)
  | .ok records =>
      match env.getDatabaseOutcome with
      | .error e => ([], .error e)
      | .ok _ =>
          let run := restoreCollections options env.colEnvs records
          (run.1, .ok ⟨run.2, records, targetCluster, targetDatabase⟩)

/-- `restoreBackup(backupPath, targetCluster, targetDatabase, options)`
(lines 134-222).  When `backupPath` ends in `.zip` the archive is expanded
into a scratch directory first (lines 139-144) and that directory is removed
at lines 206-209; any thrown error is rethrown by the outer `catch`
(line 220). -/
def restoreBackup (env : RestoreEnv) (backupPath targetCluster targetDatabase : String)
    (options : RestoreOptions) : RestoreTrace × Except String RestoreResult :=
  if jsEndsWith backupPath ".zip" then
    match env.extractOutcome with
    | .error e => (⟨true, false, []⟩, .error e)
    | .ok _ =>
        match restoreBody env targetCluster targetDatabase options with
        | (ops, .error e) => (⟨true, false, ops⟩, .error e)
        | (ops, .ok res) =>
            match env.rmdirOutcome with
            | .error e => (⟨true, false, ops⟩, .error e)
            | .ok _ => (⟨true, true, ops⟩, .ok res)
  else
    match restoreBody env targetCluster targetDatabase options with
    | (ops, r) => (⟨false, false, ops⟩, r)

/-! ### Inventory: `listBackups` (backup-manager.js:224-269) -/

/-- Fields of a parsed `backup-info.json` that `listBackups` reads
(lines 241-245).  `totalSize` is carried to show it is never consulted. -/
structure ListedManifest where
  timestamp : Int
  cluster : String
  database : String
  collections : List ManifestRecord
  totalDocuments : Nat
  totalSize : Nat
  deriving Repr, DecidableEq

/-- One immediate entry of the backup root as seen through `fs.readdir` +
`fs.stat`: a directory (with the outcome of reading its `backup-info.json`)
or a plain file. -/
inductive FsEntry where
  | dir (name : String) (statSize : Nat) (manifestOutcome : Except String ListedManifest)
  | file (name : String) (statSize : Nat) (mtime : Int)
  deriving Repr

/-- A descriptor pushed by `listBackups`.  Directory entries carry
manifest-derived fields (lines 238-248); archive entries carry only
filesystem metadata (lines 254-260), their manifest-derived fields are
absent (`none`). -/
structure BackupDescriptor where
  name : String
  path : String
  created : Int
  cluster : Option String
  database : Option String
  collections : Option Nat
  totalDocuments : Option Nat
  size : Nat
  compressed : Bool
  deriving Repr, DecidableEq

/-- Descriptor produced for one backup-root entry, if any: a directory with
an unreadable or unparsable manifest is silently skipped (lines 249-251), a
file not ending in `.zip` is ignored (line 252). -/
def listEntry : FsEntry → Option BackupDescriptor
  | .dir name statSize manifestOutcome =>
      match manifestOutcome with
      | .error _ => none
      | .ok info =>
          some { name := name, path := "backups/" ++ name, created := info.timestamp,
                 cluster := some info.cluster, database := some info.database,
                 collections := some info.collections.length,
                 totalDocuments := some info.totalDocuments,
                 size := statSize, compressed := false }
  | .file name statSize mtime =>
      if jsEndsWith name ".zip" then
        some { name := jsReplaceFirst name ".zip", path := "backups/" ++ name,
               created := mtime, cluster := none, database := none,
               collections := none, totalDocuments := none,
               size := statSize, compressed := true }
      else none

/-- Stable insertion into a list sorted by `created` descending. -/
def insertByCreatedDesc (b : BackupDescriptor) :
    List BackupDescriptor → List BackupDescriptor
  | [] => [b]
  | x :: rest =>
      if b.created ≥ x.created then b :: x :: rest
      else x :: insertByCreatedDesc b rest

/-- Stable sort by `created` descending, modelling
`backups.sort((a, b) => new Date(b.created) - new Date(a.created))`
(line 264); the engine's sort is stable, and the exact order of ties is not
relied upon by any caller. -/
def sortByCreatedDesc : List BackupDescriptor → List BackupDescriptor
  | [] => []
  | b :: rest => insertByCreatedDesc b (sortByCreatedDesc rest)

/-- `listBackups()` (lines 224-269) over the given backup-root entries. -/
def listBackups (entries : List FsEntry) : List BackupDescriptor :=
  sortByCreatedDesc (entries.filterMap listEntry)

/-! ### Retention Sweeper: `cleanupOldBackups` (backup-manager.js:374-403) -/

/-- JS `a || b` for an optional number: `null`, `undefined` and `0` are all
falsy (line 375 chains `retentionDays || config.getSetting(..) || 30`). -/
def orFalsyNum : Option Nat → Nat → Nat
  | none, d => d
  | some n, d => if n = 0 then d else n

/-- Environment of one `cleanupOldBackups` call: the backup-root entries,
the per-path deletion outcomes (`fs.unlink` for archives, `fs.rmdir` for
directories; a path not listed deletes cleanly), the configured retention,
and the current time.  Time is measured in days so that
`cutoffDate.setDate(cutoffDate.getDate() - retention)` is plain
subtraction. -/
structure SweepEnv where
  entries : List FsEntry
  deleteOutcomes : List (String × Except String Unit)
  configRetention : Option Nat
  nowDays : Int

/-- Outcome of deleting the backup at `p` (lines 387-391). -/
def deleteOutcome (env : SweepEnv) (p : String) : Except String Unit :=
  match env.deleteOutcomes.lookup p with
  | some o => o
  | none => .ok ()

/-- The cutoff computed at lines 376-377. -/
def sweepCutoff (env : SweepEnv) (retentionDays : Option Nat) : Int :=
  env.nowDays - orFalsyNum retentionDays (orFalsyNum env.configRetention 30)

/-- Whether deleting the backup at `p` succeeds. -/
def deleteSucceeds (env : SweepEnv) (p : String) : Bool :=
  match deleteOutcome env p with
  | .ok _ => true
  | .error _ => false

/-- The deletion loop (lines 385-396): attempt to delete every candidate,
log-and-continue on failure; returns the names actually removed. -/
def sweepDelete (env : SweepEnv) : List BackupDescriptor → List String
  | [] => []
  | b :: rest =>
      match deleteOutcome env b.path with
      | .ok _ => b.name :: sweepDelete env rest
      | .error _ => sweepDelete env rest

/-- `cleanupOldBackups(retentionDays)` (lines 374-403): filter the inventory
to the backups created before the cutoff, delete each best-effort, and return
`oldBackups.length` (line 398).  The second component is the list of backups
actually removed. -/
def cleanupOldBackups (env : SweepEnv) (retentionDays : Option Nat) : Nat × List String :=
  let cutoff := sweepCutoff env retentionDays
  let backups := listBackups env.entries
  let oldBackups := backups.filter (fun b => b.created < cutoff)
  (oldBackups.length, sweepDelete env oldBackups)

/-! ### Scheduler: `scheduleBackup` (backup-manager.js:271-318)

Property access on JS objects is dynamic, and the bug-relevant call site
`this.scheduledJobs.get(jobId).stop()` (line 277) depends on it, so the
scheduler's values are modelled as dynamic JS values. -/

/-- A dynamic JS value: `undefined`, primitives, a function, or an object
with named fields. -/
inductive JsVal where
  | undefinedVal
  | str (s : String)
  | num (n : Int)
  | fn (tag : String)
  | obj (fields : List (String × JsVal))

/-- Property access `v[k]`: `undefined` when the field is missing or the
receiver is not an object. -/
def JsVal.getField : JsVal → String → JsVal
  | .obj fields, k =>
      match fields.lookup k with
      | some v => v
      | none => .undefinedVal
  | _, _ => .undefinedVal

/-- Whether a value can be called. -/
def JsVal.isCallable : JsVal → Bool
  | .fn _ => true
  | _ => false

/-- A zero-argument method call `v.m()`: throws a `TypeError` unless the
property `m` of `v` is a function. -/
def jsCallMethod (v : JsVal) (m : String) : Except String Unit :=
  if (v.getField m).isCallable then .ok ()
  else .error ("TypeError: " ++ m ++ " is not a function")

/-- The `ScheduledTask` returned by `cron.schedule(...)` (lines 280-290): an
object exposing `start`/`stop` methods. -/
def cronTaskVal : JsVal :=
  .obj [("start", .fn "start"), ("stop", .fn "stop"), ("nextDate", .fn "nextDate")]

/-- The entry stored into `this.scheduledJobs` (lines 292-299): a wrapper
object holding the cron task under its `job` field next to the metadata. -/
def scheduledEntryVal (job : JsVal) (cluster database pattern : String)
    (options : JsVal) (createdAt : Int) : JsVal :=
  .obj [("job", job), ("cluster", .str cluster), ("database", .str database),
        ("pattern", .str pattern), ("options", options), ("createdAt", .num createdAt)]

/-- `Map.prototype.set`: replace in place when the key exists (preserving
insertion order), append otherwise. -/
def mapSet (m : List (String × JsVal)) (k : String) (v : JsVal) :
    List (String × JsVal) :=
  if m.any (fun p => p.1 == k) then
    m.map (fun p => if p.1 == k then (k, v) else p)
  else m ++ [(k, v)]

/-- Scheduler state: the in-memory `scheduledJobs` map and the persisted
`backupSchedules` table of the configuration store. -/
structure SchedulerState where
  scheduledJobs : List (String × JsVal)
  configSchedules : List (String × JsVal)

/-- A fresh `BackupManager`'s scheduler state (line 11). -/
def initSchedulerState : SchedulerState := ⟨[], []⟩

/-- `scheduleBackup(clusterName, dbName, cronPattern, options)`
(lines 271-318).  Line 277 calls `.stop()` directly on the stored map entry
(the wrapper object) rather than on its `job` field; the thrown error is
rethrown by the outer `catch` (line 316). -/
def scheduleBackup (st : SchedulerState) (clusterName dbName cronPattern : String)
    (options : JsVal) (now : Int) : Except String (SchedulerState × String) := do
  let jobId := clusterName ++ "-" ++ dbName
  let _ ←
    match st.scheduledJobs.lookup jobId with
    | some entry => jsCallMethod entry "stop"
    | none => Except.ok ()
  let job := cronTaskVal
  let entry := scheduledEntryVal job clusterName dbName cronPattern options now
  let jobs := mapSet st.scheduledJobs jobId entry
  let _ ← jsCallMethod job "start"
  let schedules := mapSet st.configSchedules jobId
    (.obj [("cluster", .str clusterName), ("database", .str dbName),
           ("pattern", .str cronPattern), ("options", options)])
  pure (⟨jobs, schedules⟩, jobId)

/-- `unscheduleBackup(jobId)` (lines 320-329); given for contrast with
`scheduleBackup`: here the source correctly stops the task via the wrapper's
`job` field (`.job.stop()`, line 322). -/
def unscheduleBackup (st : SchedulerState) (jobId : String) :
    Except String (SchedulerState × Bool) := do
  match st.scheduledJobs.lookup jobId with
  | some entry => do
      let _ ← jsCallMethod (entry.getField "job") "stop"
      pure (⟨st.scheduledJobs.filter (fun p => p.1 ≠ jobId),
             st.configSchedules.filter (fun p => p.1 ≠ jobId)⟩, true)
  | none => pure (st, false)

/-! ## Theorems -/

theorem backupCollections_eq (clusterName dbName : String)
    (cols : List CollectionSource) (info : BackupInfo) :
    backupCollections clusterName dbName cols info =
      { info with
          collections := info.collections ++ cols.map (snapshotRecord clusterName dbName),
          totalDocuments := info.totalDocuments
            + (cols.map (snapshotDocs clusterName dbName)).sum,
          totalSize := info.totalSize
            + (cols.map (snapshotSize clusterName dbName)).sum } := by
  induction cols generalizing info with
  | nil => simp [backupCollections]
  | cons c rest ih =>
      cases h : tryBackupCollection clusterName dbName c with
      | ok v =>
          obtain ⟨docCount, size, idxCount⟩ := v
          simp [backupCollections, h, ih, snapshotRecord, snapshotDocs, snapshotSize,
            List.append_assoc, Nat.add_assoc]
      | error msg =>
          simp [backupCollections, h, ih, snapshotRecord, snapshotDocs, snapshotSize,
            List.append_assoc]

theorem createBackup_ok_inv (env : CreateBackupEnv) (clusterName dbName : String)
    (options : BackupOptions) (out : CreateBackupOutput)
    (hok : createBackup env clusterName dbName options = .ok out) :
    ∃ cols, env.listCollectionsOutcome = .ok cols ∧
      out.persistedManifest =
        { cluster := clusterName, database := dbName, timestamp := env.now,
          collections := cols.map (snapshotRecord clusterName dbName),
          totalDocuments := (cols.map (snapshotDocs clusterName dbName)).sum,
          totalSize := (cols.map (snapshotSize clusterName dbName)).sum,
          compressed := none, archivePath := none } ∧
      out.result.info =
        (if options.compress then
           { out.persistedManifest with
               compressed := some true,
               archivePath := some ("backups/" ++ (clusterName ++ "-" ++ dbName ++ "-"
                 ++ env.timestamp) ++ ".zip") }
         else out.persistedManifest) ∧
      out.result.size = (cols.map (snapshotSize clusterName dbName)).sum ∧
      out.result.collections = cols.length ∧
      out.result.path =
        (if options.compress then
          "backups/" ++ (clusterName ++ "-" ++ dbName ++ "-" ++ env.timestamp) ++ ".zip"
         else "backups/" ++ (clusterName ++ "-" ++ dbName ++ "-" ++ env.timestamp)) := by
  cases hmk : env.mkdirOutcome with
  | error e => simp [createBackup, hmk, Bind.bind, Except.bind] at hok
  | ok u =>
  cases hdb : env.getDatabaseOutcome with
  | error e => simp [createBackup, hmk, hdb, Bind.bind, Except.bind] at hok
  | ok u2 =>
  cases hlist : env.listCollectionsOutcome with
  | error e => simp [createBackup, hmk, hdb, hlist, Bind.bind, Except.bind] at hok
  | ok cols =>
  cases hmeta : env.metadataWriteOutcome with
  | error e => simp [createBackup, hmk, hdb, hlist, hmeta, Bind.bind, Except.bind] at hok
  | ok u3 =>
  refine ⟨cols, rfl, ?_⟩
  cases hc : options.compress with
  | false =>
      simp [createBackup, hmk, hdb, hlist, hmeta, hc, Bind.bind, Except.bind,
        pure, Except.pure] at hok
      subst hok
      simp [backupCollections_eq]
  | true =>
      cases hcp : env.compressOutcome with
      | error e =>
          simp [createBackup, hmk, hdb, hlist, hmeta, hc, hcp, Bind.bind, Except.bind] at hok
      | ok u4 =>
      cases hrm : env.rmdirOutcome with
      | error e =>
          simp [createBackup, hmk, hdb, hlist, hmeta, hc, hcp, hrm,
            Bind.bind, Except.bind] at hok
      | ok u5 =>
          simp [createBackup, hmk, hdb, hlist, hmeta, hc, hcp, hrm, Bind.bind, Except.bind,
            pure, Except.pure] at hok
          subst hok
          simp [backupCollections_eq]

/-- C2: for every database whose enumeration at the start of `createBackup`
yields `N` collections, the produced manifest contains exactly `N` collection
records, regardless of how many of those collections individually fail to
snapshot; a collection that failed is present as a record carrying the thrown
error's message instead of document data. -/
theorem createBackup_record_per_collection
    (env : CreateBackupEnv) (clusterName dbName : String) (options : BackupOptions)
    (cols : List CollectionSource) (out : CreateBackupOutput)
    (hlist : env.listCollectionsOutcome = .ok cols)
    (hok : createBackup env clusterName dbName options = .ok out) :
    out.result.info.collections.length = cols.length ∧
    ∀ c ∈ cols, ∀ msg, tryBackupCollection clusterName dbName c = .error msg →
      CollRecord.failure c.name msg ∈ out.result.info.collections := by
  obtain ⟨cols2, hlist2, hpm, hinfo, hsize, hcount, hpath⟩ :=
    createBackup_ok_inv env clusterName dbName options out hok
  rw [hlist] at hlist2
  injection hlist2 with h
  subst h
  have hcolls : out.result.info.collections =
      cols.map (snapshotRecord clusterName dbName) := by
    cases hc : options.compress <;> simp [hinfo, hc, hpm]
  refine ⟨by simp [hcolls], ?_⟩
  intro c hc msg hmsg
  rw [hcolls]
  have hrec : snapshotRecord clusterName dbName c = .failure c.name msg := by
    simp [snapshotRecord, hmsg]
  exact hrec ▸ List.mem_map_of_mem _ hc

/-- C2 witness: a two-collection database in which both collections' document
retrieval throws still yields a manifest with exactly two records, each
carrying its error message. -/
theorem createBackup_record_per_collection_witness :
    createBackup
        { timestamp := "T", now := 0, mkdirOutcome := .ok (), getDatabaseOutcome := .ok (),
          listCollectionsOutcome := .ok
            [⟨"users", .error "e1", .ok [], .ok (.obj []), .ok ()⟩,
             ⟨"orders", .error "boom", .ok [], .ok (.obj []), .ok ()⟩],
          metadataWriteOutcome := .ok (), compressOutcome := .ok (),
          rmdirOutcome := .ok () } "c1" "db" ⟨false⟩ =
      .ok ⟨⟨"c1-db-T", "backups/c1-db-T",
             ⟨"c1", "db", 0, [.failure "users" "e1", .failure "orders" "boom"], 0, 0,
              none, none⟩, 0, 2⟩,
            ⟨"c1", "db", 0, [.failure "users" "e1", .failure "orders" "boom"], 0, 0,
             none, none⟩⟩ ∧
    [CollRecord.failure "users" "e1", CollRecord.failure "orders" "boom"].length = 2 ∧
    CollRecord.failure "orders" "boom" ∈
      [CollRecord.failure "users" "e1", CollRecord.failure "orders" "boom"] := by
  have h := createBackup_record_per_collection
    { timestamp := "T", now := 0, mkdirOutcome := .ok (), getDatabaseOutcome := .ok (),
      listCollectionsOutcome := .ok
        [⟨"users", .error "e1", .ok [], .ok (.obj []), .ok ()⟩,
         ⟨"orders", .error "boom", .ok [], .ok (.obj []), .ok ()⟩],
      metadataWriteOutcome := .ok (), compressOutcome := .ok (),
      rmdirOutcome := .ok () } "c1" "db" ⟨false⟩
    [⟨"users", .error "e1", .ok [], .ok (.obj []), .ok ()⟩,
     ⟨"orders", .error "boom", .ok [], .ok (.obj []), .ok ()⟩]
    ⟨⟨"c1-db-T", "backups/c1-db-T",
       ⟨"c1", "db", 0, [.failure "users" "e1", .failure "orders" "boom"], 0, 0,
        none, none⟩, 0, 2⟩,
      ⟨"c1", "db", 0, [.failure "users" "e1", .failure "orders" "boom"], 0, 0,
       none, none⟩⟩ rfl rfl
  exact ⟨rfl, h.1,
    h.2 ⟨"orders", .error "boom", .ok [], .ok (.obj []), .ok ()⟩ (by simp) "boom" rfl⟩

/-- C3: whenever directory creation, database resolution, enumeration and
the manifest write succeed (and, when compression is requested, the archive
step succeeds), `createBackup` resolves successfully even though individual
collections' document or index retrieval throws; each such collection
contributes a failure record carrying the thrown error's message, and the
reported `collections` count includes the failed entries. -/
theorem createBackup_isolates_collection_failures
    (env : CreateBackupEnv) (clusterName dbName : String) (options : BackupOptions)
    (cols : List CollectionSource)
    (hmk : env.mkdirOutcome = .ok ()) (hdb : env.getDatabaseOutcome = .ok ())
    (hlist : env.listCollectionsOutcome = .ok cols)
    (hmeta : env.metadataWriteOutcome = .ok ())
    (hcz : options.compress = true →
      env.compressOutcome = .ok () ∧ env.rmdirOutcome = .ok ()) :
    ∃ out, createBackup env clusterName dbName options = .ok out ∧
      out.result.collections = cols.length ∧
      ∀ c ∈ cols, ∀ msg, tryBackupCollection clusterName dbName c = .error msg →
        CollRecord.failure c.name msg ∈ out.result.info.collections := by
  cases hres : createBackup env clusterName dbName options with
  | error e =>
      exfalso
      cases hc : options.compress with
      | false =>
          simp [createBackup, hmk, hdb, hlist, hmeta, hc, Bind.bind, Except.bind,
            pure, Except.pure] at hres
      | true =>
          obtain ⟨hcp, hrm⟩ := hcz hc
          simp [createBackup, hmk, hdb, hlist, hmeta, hc, hcp, hrm, Bind.bind, Except.bind,
            pure, Except.pure] at hres
  | ok out =>
      obtain ⟨cols2, hlist2, hpm, hinfo, hsize, hcount, hpath⟩ :=
        createBackup_ok_inv env clusterName dbName options out hres
      rw [hlist] at hlist2
      injection hlist2 with h
      subst h
      have hcolls : out.result.info.collections =
          cols.map (snapshotRecord clusterName dbName) := by
        cases hc : options.compress <;> simp [hinfo, hc, hpm]
      refine ⟨out, rfl, hcount, ?_⟩
      intro c hc msg hmsg
      rw [hcolls]
      have hrec : snapshotRecord clusterName dbName c = .failure c.name msg := by
        simp [snapshotRecord, hmsg]
      exact hrec ▸ List.mem_map_of_mem _ hc

/-- C3 witness: with all outer steps succeeding and the single collection's
index listing throwing, `createBackup` still resolves, counts the failed
entry, and records its error message. -/
theorem createBackup_isolates_collection_failures_witness :
    ({ timestamp := "T", now := 0, mkdirOutcome := .ok (), getDatabaseOutcome := .ok (),
       listCollectionsOutcome := .ok
         [⟨"users", .ok [], .error "index listing failed", .ok (.obj []), .ok ()⟩],
       metadataWriteOutcome := .ok (), compressOutcome := .ok (),
       rmdirOutcome := .ok () } : CreateBackupEnv).mkdirOutcome = .ok () ∧
    (∃ out, createBackup
        { timestamp := "T", now := 0, mkdirOutcome := .ok (), getDatabaseOutcome := .ok (),
          listCollectionsOutcome := .ok
            [⟨"users", .ok [], .error "index listing failed", .ok (.obj []), .ok ()⟩],
          metadataWriteOutcome := .ok (), compressOutcome := .ok (),
          rmdirOutcome := .ok () } "c1" "db" ⟨false⟩ = .ok out ∧
      out.result.collections = 1 ∧
      ∀ c ∈ [(⟨"users", .ok [], .error "index listing failed", .ok (.obj []),
               .ok ()⟩ : CollectionSource)],
        ∀ msg, tryBackupCollection "c1" "db" c = .error msg →
          CollRecord.failure c.name msg ∈ out.result.info.collections) := by
  have h := createBackup_isolates_collection_failures
    { timestamp := "T", now := 0, mkdirOutcome := .ok (), getDatabaseOutcome := .ok (),
      listCollectionsOutcome := .ok
        [⟨"users", .ok [], .error "index listing failed", .ok (.obj []), .ok ()⟩],
      metadataWriteOutcome := .ok (), compressOutcome := .ok (),
      rmdirOutcome := .ok () } "c1" "db" ⟨false⟩
    [⟨"users", .ok [], .error "index listing failed", .ok (.obj []), .ok ()⟩]
    rfl rfl rfl rfl (fun _ => ⟨rfl, rfl⟩)
  exact ⟨rfl, h⟩

/-- C6 counterexample: a compressed backup whose persisted `backup-info.json`
carries neither `compressed` nor `archivePath` — the file is serialized at
line 88, before the Archiver runs — while the in-memory manifest returned in
the result does carry both. -/
theorem createBackup_persisted_manifest_cex :
    createBackup
        { timestamp := "T", now := 0, mkdirOutcome := .ok (), getDatabaseOutcome := .ok (),
          listCollectionsOutcome := .ok [], metadataWriteOutcome := .ok (),
          compressOutcome := .ok (), rmdirOutcome := .ok () } "cl" "db" ⟨true⟩ =
      .ok ⟨⟨"cl-db-T", "backups/cl-db-T.zip",
             ⟨"cl", "db", 0, [], 0, 0, some true, some "backups/cl-db-T.zip"⟩, 0, 0⟩,
            ⟨"cl", "db", 0, [], 0, 0, none, none⟩⟩ ∧
    (⟨"cl", "db", 0, [], 0, 0, none, none⟩ : BackupInfo).archivePath = none ∧
    (⟨"cl", "db", 0, [], 0, 0, none, none⟩ : BackupInfo).compressed = none :=
  ⟨rfl, rfl, rfl⟩

/-- C6 (amended): the persisted `backup-info.json` is exactly the returned
manifest with `compressed` and `archivePath` absent — even when
`options.compress` is true, in which case only the in-memory manifest in the
result carries `compressed: true` and the archive path. -/
theorem createBackup_persisted_manifest_predates_archiver
    (env : CreateBackupEnv) (clusterName dbName : String) (options : BackupOptions)
    (out : CreateBackupOutput)
    (hok : createBackup env clusterName dbName options = .ok out) :
    out.persistedManifest =
      { out.result.info with compressed := none, archivePath := none } ∧
    (options.compress = true →
      out.result.info.compressed = some true ∧
      out.result.info.archivePath = some out.result.path) := by
  obtain ⟨cols, hlist, hpm, hinfo, hsize, hcount, hpath⟩ :=
    createBackup_ok_inv env clusterName dbName options out hok
  cases hc : options.compress with
  | false =>
      refine ⟨?_, fun h => (Bool.false_ne_true h).elim⟩
      rw [hinfo, hc]
      simp [hpm]
  | true =>
      refine ⟨?_, fun _ => ?_⟩
      · rw [hinfo, hc]
        simp [hpm]
      · rw [hinfo, hpath, hc]
        simp

/-- C6 witness: instance of the amended claim on a concrete compressed
backup. -/
theorem createBackup_persisted_manifest_predates_archiver_witness :
    createBackup
        { timestamp := "T", now := 1, mkdirOutcome := .ok (), getDatabaseOutcome := .ok (),
          listCollectionsOutcome := .ok [], metadataWriteOutcome := .ok (),
          compressOutcome := .ok (), rmdirOutcome := .ok () } "cl" "db" ⟨true⟩ =
      .ok ⟨⟨"cl-db-T", "backups/cl-db-T.zip",
             ⟨"cl", "db", 1, [], 0, 0, some true, some "backups/cl-db-T.zip"⟩, 0, 0⟩,
            ⟨"cl", "db", 1, [], 0, 0, none, none⟩⟩ ∧
    ((⟨⟨"cl-db-T", "backups/cl-db-T.zip",
        ⟨"cl", "db", 1, [], 0, 0, some true, some "backups/cl-db-T.zip"⟩, 0, 0⟩,
       ⟨"cl", "db", 1, [], 0, 0, none, none⟩⟩ : CreateBackupOutput).persistedManifest =
      { (⟨⟨"cl-db-T", "backups/cl-db-T.zip",
          ⟨"cl", "db", 1, [], 0, 0, some true, some "backups/cl-db-T.zip"⟩, 0, 0⟩,
         ⟨"cl", "db", 1, [], 0, 0, none, none⟩⟩ : CreateBackupOutput).result.info with
          compressed := none, archivePath := none } ∧
     ((⟨true⟩ : BackupOptions).compress = true →
      (⟨⟨"cl-db-T", "backups/cl-db-T.zip",
         ⟨"cl", "db", 1, [], 0, 0, some true, some "backups/cl-db-T.zip"⟩, 0, 0⟩,
        ⟨"cl", "db", 1, [], 0, 0, none, none⟩⟩ : CreateBackupOutput).result.info.compressed
          = some true ∧
      (⟨⟨"cl-db-T", "backups/cl-db-T.zip",
         ⟨"cl", "db", 1, [], 0, 0, some true, some "backups/cl-db-T.zip"⟩, 0, 0⟩,
        ⟨"cl", "db", 1, [], 0, 0, none, none⟩⟩ : CreateBackupOutput).result.info.archivePath
          = some (⟨⟨"cl-db-T", "backups/cl-db-T.zip",
              ⟨"cl", "db", 1, [], 0, 0, some true, some "backups/cl-db-T.zip"⟩, 0, 0⟩,
             ⟨"cl", "db", 1, [], 0, 0, none, none⟩⟩ :
               CreateBackupOutput).result.path)) := by
  refine ⟨rfl, ?_⟩
  exact createBackup_persisted_manifest_predates_archiver
    { timestamp := "T", now := 1, mkdirOutcome := .ok (), getDatabaseOutcome := .ok (),
      listCollectionsOutcome := .ok [], metadataWriteOutcome := .ok (),
      compressOutcome := .ok (), rmdirOutcome := .ok () } "cl" "db" ⟨true⟩
    ⟨⟨"cl-db-T", "backups/cl-db-T.zip",
       ⟨"cl", "db", 1, [], 0, 0, some true, some "backups/cl-db-T.zip"⟩, 0, 0⟩,
      ⟨"cl", "db", 1, [], 0, 0, none, none⟩⟩ rfl

/-- C7: the reported `size` equals the sum of the serialized per-collection
payload sizes of the successfully snapshotted collections, and is identical
across runs of the same environment with and without compression: it is the
pre-compression logical size, not the archive's on-disk size. -/
theorem createBackup_size_is_logical_size
    (env : CreateBackupEnv) (clusterName dbName : String)
    (options options2 : BackupOptions) (out out2 : CreateBackupOutput)
    (cols : List CollectionSource)
    (hlist : env.listCollectionsOutcome = .ok cols)
    (hok : createBackup env clusterName dbName options = .ok out)
    (hok2 : createBackup env clusterName dbName options2 = .ok out2) :
    out.result.size = (cols.map (snapshotSize clusterName dbName)).sum ∧
    out2.result.size = out.result.size := by
  obtain ⟨colsA, hlistA, _, _, hsizeA, _, _⟩ :=
    createBackup_ok_inv env clusterName dbName options out hok
  obtain ⟨colsB, hlistB, _, _, hsizeB, _, _⟩ :=
    createBackup_ok_inv env clusterName dbName options2 out2 hok2
  rw [hlist] at hlistA hlistB
  injection hlistA with hA
  subst hA
  injection hlistB with hB
  subst hB
  exact ⟨hsizeA, by rw [hsizeB, hsizeA]⟩

/-- C7 witness: one successful (empty) collection and one failed collection;
the compressed and uncompressed runs both report size 88, the length of the
successful collection's serialized payload. -/
theorem createBackup_size_is_logical_size_witness :
    createBackup
        { timestamp := "T", now := 0, mkdirOutcome := .ok (), getDatabaseOutcome := .ok (),
          listCollectionsOutcome := .ok
            [⟨"a", .ok [], .ok [], .ok (.obj []), .ok ()⟩,
             ⟨"b", .error "read failed", .ok [], .ok (.obj []), .ok ()⟩],
          metadataWriteOutcome := .ok (), compressOutcome := .ok (),
          rmdirOutcome := .ok () } "cl" "db" ⟨true⟩ =
      .ok ⟨⟨"cl-db-T", "backups/cl-db-T.zip",
             ⟨"cl", "db", 0, [.success "a" 0 88 0, .failure "b" "read failed"], 0, 88,
              some true, some "backups/cl-db-T.zip"⟩, 88, 2⟩,
            ⟨"cl", "db", 0, [.success "a" 0 88 0, .failure "b" "read failed"], 0, 88,
             none, none⟩⟩ ∧
    createBackup
        { timestamp := "T", now := 0, mkdirOutcome := .ok (), getDatabaseOutcome := .ok (),
          listCollectionsOutcome := .ok
            [⟨"a", .ok [], .ok [], .ok (.obj []), .ok ()⟩,
             ⟨"b", .error "read failed", .ok [], .ok (.obj []), .ok ()⟩],
          metadataWriteOutcome := .ok (), compressOutcome := .ok (),
          rmdirOutcome := .ok () } "cl" "db" ⟨false⟩ =
      .ok ⟨⟨"cl-db-T", "backups/cl-db-T",
             ⟨"cl", "db", 0, [.success "a" 0 88 0, .failure "b" "read failed"], 0, 88,
              none, none⟩, 88, 2⟩,
            ⟨"cl", "db", 0, [.success "a" 0 88 0, .failure "b" "read failed"], 0, 88,
             none, none⟩⟩ ∧
    (88 : Nat) = ([⟨"a", .ok [], .ok [], .ok (.obj []), .ok ()⟩,
        (⟨"b", .error "read failed", .ok [], .ok (.obj []), .ok ()⟩ :
          CollectionSource)].map (snapshotSize "cl" "db")).sum ∧
    (88 : Nat) = 88 := by
  refine ⟨rfl, rfl, ?_⟩
  exact createBackup_size_is_logical_size
    { timestamp := "T", now := 0, mkdirOutcome := .ok (), getDatabaseOutcome := .ok (),
      listCollectionsOutcome := .ok
        [⟨"a", .ok [], .ok [], .ok (.obj []), .ok ()⟩,
         ⟨"b", .error "read failed", .ok [], .ok (.obj []), .ok ()⟩],
      metadataWriteOutcome := .ok (), compressOutcome := .ok (),
      rmdirOutcome := .ok () } "cl" "db" ⟨true⟩ ⟨false⟩
    ⟨⟨"cl-db-T", "backups/cl-db-T.zip",
       ⟨"cl", "db", 0, [.success "a" 0 88 0, .failure "b" "read failed"], 0, 88,
        some true, some "backups/cl-db-T.zip"⟩, 88, 2⟩,
      ⟨"cl", "db", 0, [.success "a" 0 88 0, .failure "b" "read failed"], 0, 88,
       none, none⟩⟩
    ⟨⟨"cl-db-T", "backups/cl-db-T",
       ⟨"cl", "db", 0, [.success "a" 0 88 0, .failure "b" "read failed"], 0, 88,
        none, none⟩, 88, 2⟩,
      ⟨"cl", "db", 0, [.success "a" 0 88 0, .failure "b" "read failed"], 0, 88,
       none, none⟩⟩
    [⟨"a", .ok [], .ok [], .ok (.obj []), .ok ()⟩,
     ⟨"b", .error "read failed", .ok [], .ok (.obj []), .ok ()⟩]
    rfl rfl rfl

/-- C4 counterexample: an archive restore whose manifest fails to parse after
extraction: `restoreBackup` rethrows the parse error and the scratch
directory is created but never deleted, contradicting cleanup on all exit
paths. -/
theorem restoreBackup_temp_leak_cex :
    restoreBackup ⟨.ok (), .error "Unexpected end of JSON input", .ok (), [], .ok ()⟩
        "backups/b.zip" "tc" "td" ⟨false⟩ =
      (⟨true, false, []⟩, .error "Unexpected end of JSON input") := rfl

/-- C4 (amended): for an archive source, the scratch directory is removed
exactly when `restoreBackup` returns successfully; on the paths where
manifest loading/parsing or a later fatal step throws, the error propagates
and the scratch directory is not deleted (the cleanup at lines 206-209 runs
only at the end of the `try` block). -/
theorem restoreBackup_temp_removed_iff_success
    (env : RestoreEnv) (backupPath targetCluster targetDatabase : String)
    (options : RestoreOptions) (hzip : jsEndsWith backupPath ".zip" = true) :
    (restoreBackup env backupPath targetCluster targetDatabase options).1.tempDirRemoved
        = true ↔
      ∃ res, (restoreBackup env backupPath targetCluster targetDatabase options).2
        = .ok res := by
  rw [restoreBackup]
  simp only [hzip, if_true]
  cases hex : env.extractOutcome with
  | error e => simp
  | ok u =>
      rcases hb : restoreBody env targetCluster targetDatabase options with ⟨ops, r⟩
      cases r with
      | error e => simp
      | ok res =>
          cases hrm : env.rmdirOutcome with
          | error e => simp [hrm]
          | ok u2 => simp [hrm]

/-- C4 witness: on a successful archive restore the scratch directory is
removed; instance of the amended equivalence at a concrete input. -/
theorem restoreBackup_temp_removed_iff_success_witness :
    jsEndsWith "backups/b.zip" ".zip" = true ∧
    ((restoreBackup ⟨.ok (), .ok [], .ok (), [], .ok ()⟩
        "backups/b.zip" "tc" "td" ⟨false⟩).1.tempDirRemoved = true ↔
      ∃ res, (restoreBackup ⟨.ok (), .ok [], .ok (), [], .ok ()⟩
        "backups/b.zip" "tc" "td" ⟨false⟩).2 = .ok res) :=
  ⟨rfl, restoreBackup_temp_removed_iff_success ⟨.ok (), .ok [], .ok (), [], .ok ()⟩
    "backups/b.zip" "tc" "td" ⟨false⟩ rfl⟩

/-- C8 counterexample: a manifest record that carries an error — the empty
string — is not skipped: JS `if (collectionInfo.error)` is falsy for `""`
(line 156), so the restore drops and re-inserts that collection and reports
it restored. -/
theorem restoreBackup_empty_error_record_not_skipped_cex :
    restoreBackup
        ⟨.ok (), .ok [⟨"a", some ""⟩], .ok (),
         [("a", ⟨.ok ⟨[Json.null], []⟩, .ok ()⟩)], .ok ()⟩
        "backups/b" "tc" "td" ⟨true⟩ =
      (⟨false, false, [.drop "a", .insertMany "a" 1]⟩,
       .ok ⟨[⟨"a", 1, -1⟩], [⟨"a", some ""⟩], "tc", "td"⟩) := rfl

/-- C8 (amended): the restore loop skips exactly the manifest records whose
`error` field is a non-empty string: removing those records from the manifest
leaves the attempted database operations and the restored collections
unchanged, so a skipped record contributes no drop, insert or index-creation
and never appears in `restoredCollections`.  (A record whose `error` is the
empty string is not skipped, as JS truthiness lets it through.) -/
theorem restoreCollections_skips_truthy_error_records
    (options : RestoreOptions) (colEnvs : List (String × CollRestoreEnv))
    (records : List ManifestRecord) :
    restoreCollections options colEnvs records =
      restoreCollections options colEnvs
        (records.filter (fun r => !truthyError r.error)) := by
  induction records with
  | nil => rfl
  | cons r rest ih =>
      cases ht : truthyError r.error with
      | true => simp [restoreCollections, ht, List.filter_cons, ih]
      | false => simp [restoreCollections, ht, List.filter_cons, ← ih]

theorem restoreCollection_some_inv (options : RestoreOptions)
    (colEnvs : List (String × CollRestoreEnv)) (rec : ManifestRecord)
    (entry : RestoredEntry)
    (h : (restoreCollection options colEnvs rec).2 = some entry) :
    ∃ ce data, colEnvs.lookup rec.name = some ce ∧ ce.readOutcome = .ok data ∧
      entry = ⟨rec.name, data.documents.length, (data.indexes.length : Int) - 1⟩ := by
  cases hl : colEnvs.lookup rec.name with
  | none => simp [restoreCollection, hl] at h
  | some ce =>
      cases hr : ce.readOutcome with
      | error e => simp [restoreCollection, hl, hr] at h
      | ok data =>
          refine ⟨ce, data, rfl, hr, ?_⟩
          by_cases hd : data.documents.length > 0
          · cases hi : ce.insertOutcome with
            | error e => simp [restoreCollection, hl, hr, hd, hi] at h
            | ok u =>
                simp [restoreCollection, hl, hr, hd, hi] at h
                exact h.symm
          · simp [restoreCollection, hl, hr, hd] at h
            exact h.symm

theorem mem_restoreCollections (options : RestoreOptions)
    (colEnvs : List (String × CollRestoreEnv)) (records : List ManifestRecord)
    (entry : RestoredEntry)
    (h : entry ∈ (restoreCollections options colEnvs records).2) :
    ∃ rec, rec ∈ records ∧ (restoreCollection options colEnvs rec).2 = some entry := by
  induction records with
  | nil => simp [restoreCollections] at h
  | cons r rest ih =>
      rw [restoreCollections] at h
      cases ht : truthyError r.error with
      | true =>
          rw [ht] at h
          simp only [if_true] at h
          obtain ⟨rec, hmem, hsome⟩ := ih h
          exact ⟨rec, List.mem_cons_of_mem r hmem, hsome⟩
      | false =>
          rw [ht] at h
          simp only [Bool.false_eq_true, if_false] at h
          rw [List.mem_append] at h
          cases h with
          | inl hstep =>
              refine ⟨r, List.mem_cons_self r rest, ?_⟩
              cases hs : (restoreCollection options colEnvs r).2 with
              | none => rw [hs] at hstep; simp [Option.toList] at hstep
              | some e =>
                  rw [hs] at hstep
                  simp [Option.toList] at hstep
                  rw [hstep]
          | inr htail =>
              obtain ⟨rec, hmem, hsome⟩ := ih htail
              exact ⟨rec, List.mem_cons_of_mem r hmem, hsome⟩

theorem restoreBackup_ok_inv (env : RestoreEnv)
    (backupPath targetCluster targetDatabase : String) (options : RestoreOptions)
    (res : RestoreResult)
    (hok : (restoreBackup env backupPath targetCluster targetDatabase options).2
      = .ok res) :
    ∃ records, env.manifestOutcome = .ok records ∧
      res.restoredCollections = (restoreCollections options env.colEnvs records).2 := by
  have hbody : ∀ ops r, restoreBody env targetCluster targetDatabase options = (ops, r) →
      r = .ok res →
      ∃ records, env.manifestOutcome = .ok records ∧
        res.restoredCollections = (restoreCollections options env.colEnvs records).2 := by
    intro ops r hb hr
    subst hr
    rw [restoreBody] at hb
    cases hm : env.manifestOutcome with
    | error e => rw [hm] at hb; simp at hb
    | ok records =>
        rw [hm] at hb
        cases hdb : env.getDatabaseOutcome with
        | error e => rw [hdb] at hb; simp at hb
        | ok u =>
            rw [hdb] at hb
            simp at hb
            refine ⟨records, rfl, ?_⟩
            rw [← hb.2]
  rw [restoreBackup] at hok
  by_cases hz : jsEndsWith backupPath ".zip" = true
  · rw [if_pos hz] at hok
    cases hex : env.extractOutcome with
    | error e => rw [hex] at hok; simp at hok
    | ok u =>
        rw [hex] at hok
        rcases hb : restoreBody env targetCluster targetDatabase options with ⟨ops, r⟩
        rw [hb] at hok
        cases r with
        | error e => simp at hok
        | ok res2 =>
            cases hrm : env.rmdirOutcome with
            | error e => rw [hrm] at hok; simp at hok
            | ok u2 =>
                rw [hrm] at hok
                simp at hok
                exact hbody ops (.ok res2) hb (by rw [hok])
  · rw [if_neg hz] at hok
    rcases hb : restoreBody env targetCluster targetDatabase options with ⟨ops, r⟩
    rw [hb] at hok
    simp at hok
    exact hbody ops r hb hok

/-- C9: every entry of `restoredCollections` reports an index count equal to
the number of index entries in its export file minus one — the subtraction at
line 197 is unconditional, so a file whose `indexes` array is empty is
reported with index count `-1`. -/
theorem restoreBackup_index_count_off_by_one
    (env : RestoreEnv) (backupPath targetCluster targetDatabase : String)
    (options : RestoreOptions) (res : RestoreResult) (entry : RestoredEntry)
    (hok : (restoreBackup env backupPath targetCluster targetDatabase options).2
      = .ok res)
    (hmem : entry ∈ res.restoredCollections) :
    ∃ ce data, env.colEnvs.lookup entry.name = some ce ∧
      ce.readOutcome = .ok data ∧
      entry.indexes = (data.indexes.length : Int) - 1 := by
  obtain ⟨records, hman, hrc⟩ :=
    restoreBackup_ok_inv env backupPath targetCluster targetDatabase options res hok
  rw [hrc] at hmem
  obtain ⟨rec, hrmem, hsome⟩ :=
    mem_restoreCollections options env.colEnvs records entry hmem
  obtain ⟨ce, data, hl, hr, hentry⟩ :=
    restoreCollection_some_inv options env.colEnvs rec entry hsome
  subst hentry
  exact ⟨ce, data, hl, hr, rfl⟩

/-- C9 witness: a restored collection whose export file has an empty
`indexes` array is reported with index count `-1`. -/
theorem restoreBackup_index_count_off_by_one_witness :
    (restoreBackup ⟨.ok (), .ok [⟨"a", none⟩], .ok (),
        [("a", ⟨.ok ⟨[], []⟩, .ok ()⟩)], .ok ()⟩
      "backups/b" "tc" "td" ⟨false⟩).2 =
      .ok ⟨[⟨"a", 0, -1⟩], [⟨"a", none⟩], "tc", "td"⟩ ∧
    (⟨"a", 0, -1⟩ : RestoredEntry) ∈
      [(⟨"a", 0, -1⟩ : RestoredEntry)] ∧
    (∃ ce data,
      List.lookup (RestoredEntry.name ⟨"a", 0, -1⟩)
          [("a", (⟨.ok ⟨[], []⟩, .ok ()⟩ : CollRestoreEnv))] = some ce ∧
      CollRestoreEnv.readOutcome ce = .ok data ∧
      RestoredEntry.indexes ⟨"a", 0, -1⟩ = (data.indexes.length : Int) - 1) := by
  refine ⟨rfl, List.mem_cons_self _ _, ?_⟩
  exact restoreBackup_index_count_off_by_one
    ⟨.ok (), .ok [⟨"a", none⟩], .ok (), [("a", ⟨.ok ⟨[], []⟩, .ok ()⟩)], .ok ()⟩
    "backups/b" "tc" "td" ⟨false⟩
    ⟨[⟨"a", 0, -1⟩], [⟨"a", none⟩], "tc", "td"⟩ ⟨"a", 0, -1⟩
    rfl (List.mem_cons_self _ _)

theorem mem_insertByCreatedDesc (b x : BackupDescriptor) (l : List BackupDescriptor) :
    x ∈ insertByCreatedDesc b l ↔ x = b ∨ x ∈ l := by
  induction l with
  | nil => simp [insertByCreatedDesc]
  | cons y rest ih =>
      by_cases h : b.created ≥ y.created
      · simp [insertByCreatedDesc, h]
      · simp [insertByCreatedDesc, h, ih]
        tauto

theorem mem_sortByCreatedDesc (x : BackupDescriptor) (l : List BackupDescriptor) :
    x ∈ sortByCreatedDesc l ↔ x ∈ l := by
  induction l with
  | nil => simp [sortByCreatedDesc]
  | cons b rest ih => simp [sortByCreatedDesc, mem_insertByCreatedDesc, ih]

/-- C10: every uncompressed (directory-backed) descriptor in the output of
`listBackups` takes its `size` from the filesystem stat size of the directory
entry itself (line 246), not from the manifest parsed out of that directory:
the manifest's `totalSize` does not enter the descriptor at all. -/
theorem listBackups_dir_size_is_stat_size (entries : List FsEntry)
    (b : BackupDescriptor) (hmem : b ∈ listBackups entries)
    (hunc : b.compressed = false) :
    ∃ name statSize info, FsEntry.dir name statSize (.ok info) ∈ entries ∧
      b.name = name ∧ b.size = statSize := by
  rw [listBackups, mem_sortByCreatedDesc, List.mem_filterMap] at hmem
  obtain ⟨entry, hent, hsome⟩ := hmem
  cases entry with
  | dir name statSize manifestOutcome =>
      cases mo : manifestOutcome with
      | error e => rw [mo] at hsome; simp [listEntry] at hsome
      | ok info =>
          rw [mo] at hsome
          simp [listEntry] at hsome
          exact ⟨name, statSize, info, mo ▸ hent, by rw [← hsome], by rw [← hsome]⟩
  | file name statSize mtime =>
      by_cases hz : jsEndsWith name ".zip" = true
      · simp [listEntry, hz] at hsome
        rw [← hsome] at hunc
        simp at hunc
      · simp [listEntry, hz] at hsome

/-- C10 witness: a backup directory whose stat size is 4096 but whose
manifest records `totalSize` 999 is listed with `size` 4096. -/
theorem listBackups_dir_size_is_stat_size_witness :
    (⟨"x", "backups/x", 5, some "cl", some "db", some 0, some 7, 4096, false⟩ :
        BackupDescriptor) ∈
      listBackups [.dir "x" 4096 (.ok ⟨5, "cl", "db", [], 7, 999⟩)] ∧
    (⟨"x", "backups/x", 5, some "cl", some "db", some 0, some 7, 4096, false⟩ :
        BackupDescriptor).compressed = false ∧
    (∃ name statSize info,
      FsEntry.dir name statSize (.ok info) ∈
        [FsEntry.dir "x" 4096 (.ok ⟨5, "cl", "db", [], 7, 999⟩)] ∧
      (⟨"x", "backups/x", 5, some "cl", some "db", some 0, some 7, 4096, false⟩ :
        BackupDescriptor).name = name ∧
      (⟨"x", "backups/x", 5, some "cl", some "db", some 0, some 7, 4096, false⟩ :
        BackupDescriptor).size = statSize) := by
  refine ⟨by decide, rfl, ?_⟩
  exact listBackups_dir_size_is_stat_size
    [.dir "x" 4096 (.ok ⟨5, "cl", "db", [], 7, 999⟩)]
    ⟨"x", "backups/x", 5, some "cl", some "db", some 0, some 7, 4096, false⟩
    (by decide) rfl

/-- C5 counterexample: two backups exceed the cutoff, deleting the second
fails, only the first is actually removed — yet `cleanupOldBackups` returns
2, the number of candidates, not the number of backups actually removed. -/
theorem cleanupOldBackups_counts_failed_deletions_cex :
    cleanupOldBackups
        ⟨[.file "old1.zip" 10 0, .file "old2.zip" 10 0],
         [("backups/old2.zip", .error "EACCES")], none, 100⟩ (some 30) =
      (2, ["old1"]) ∧ (2 : Nat) ≠ ["old1"].length := by
  constructor
  · rfl
  · decide

theorem sweepDelete_eq_filter (env : SweepEnv) (l : List BackupDescriptor) :
    sweepDelete env l =
      (l.filter (fun b => deleteSucceeds env b.path)).map (fun b => b.name) := by
  induction l with
  | nil => rfl
  | cons b rest ih =>
      cases hd : deleteOutcome env b.path with
      | ok u => simp [sweepDelete, hd, deleteSucceeds, List.filter_cons, ih]
      | error e => simp [sweepDelete, hd, deleteSucceeds, List.filter_cons, ih]

/-- C5 (amended): `cleanupOldBackups` returns the number of deletion
candidates — the listed backups whose creation time precedes the cutoff —
counting also candidates whose deletion failed (line 398 returns
`oldBackups.length`); the backups actually removed are exactly the
candidates whose deletion succeeded. -/
theorem cleanupOldBackups_returns_candidate_count (env : SweepEnv)
    (retentionDays : Option Nat) :
    (cleanupOldBackups env retentionDays).1 =
      ((listBackups env.entries).filter
        (fun b => b.created < sweepCutoff env retentionDays)).length ∧
    (cleanupOldBackups env retentionDays).2 =
      (((listBackups env.entries).filter
          (fun b => b.created < sweepCutoff env retentionDays)).filter
        (fun b => deleteSucceeds env b.path)).map (fun b => b.name) := by
  refine ⟨rfl, ?_⟩
  rw [cleanupOldBackups]
  exact sweepDelete_eq_filter env _

/-- C1: the second `scheduleBackup` for the same (cluster, database) pair
always throws a `TypeError` instead of replacing the schedule: line 277 calls
`.stop()` on the stored wrapper entry — whose cron task lives under its
`job` field (contrast `unscheduleBackup`'s `.job.stop()`, line 322) — and the
wrapper has no `stop` function. -/
theorem scheduleBackup_reschedule_throws (c d p1 p2 : String) (o1 o2 : JsVal)
    (t1 t2 : Int) :
    ∃ st1, scheduleBackup initSchedulerState c d p1 o1 t1 = .ok (st1, c ++ "-" ++ d) ∧
      scheduleBackup st1 c d p2 o2 t2 =
        .error "TypeError: stop is not a function" := by
  refine ⟨_, rfl, ?_⟩
  simp [scheduleBackup, initSchedulerState, mapSet, jsCallMethod, JsVal.getField,
    cronTaskVal, scheduledEntryVal, JsVal.isCallable, Bind.bind, Except.bind,
    pure, Except.pure, List.lookup]

end MongoBackup
